import Mathlib

/-!
Verification development for the attestation-kit order store and wallet
verification flow.  The JavaScript sources are embedded as pure Lean
functions: the database is a `Store` value, SQL statements become list
operations on `Store.rows`, thrown JavaScript errors live in the `Except`
monad, and the two deployment variants of `DbService` (the provider-scoped
class in `src/db/DbService.js` and the providerless variant) are embedded
side by side as the namespaces `DbService` and `DbServiceV2`.
-/

/-- A user data object: the entries of a plain JS object in insertion order.
Values are already coerced to strings (`String(v)`) at every boundary of the
source, so values are modelled as strings throughout. -/
abbrev DataObj := List (String × String)

/-- JavaScript exceptions thrown by the embedded code: an `ErrorWithMessage`
identified by its `code` field, or an engine `ReferenceError` raised by
reading an undeclared identifier. -/
inductive JsError where
  | err (code : String)
  | referenceError (ident : String)
deriving DecidableEq, Repr

/-- One row of the `ATTESTATION_KIT_attestations` table.  `datum` lists the
populated `dataKey_i`/`dataValue_i` slot pairs; slots `datum.length`..`3`
are NULL (the INSERT statements always fill a prefix of the four slots). -/
structure Row where
  id : Nat
  service_provider : Option String
  datum : DataObj
  user_wallet_address : Option String
  user_device_address : Option String
  unit : Option String
  status : String
deriving DecidableEq, Repr

/-- The mutable database state: the table rows in insertion order plus the
AUTOINCREMENT counter that supplies `insertId`. -/
structure Store where
  rows : List Row
  nextId : Nat
deriving DecidableEq, Repr

/-- Well-formedness of a store: surrogate ids are unique (the table's
AUTOINCREMENT primary key). -/
def Store.wf (st : Store) : Prop := (st.rows.map Row.id).Nodup

instance (st : Store) : Decidable st.wf := by
  unfold Store.wf; infer_instance

/-- JavaScript truthiness of a possibly-undefined string (`undefined`,
`null` and the empty string are falsy). -/
def jsTruthyStr : Option String → Bool
  | none => false
  | some s => !s.isEmpty

/-- JavaScript truthiness of a possibly-undefined number (`0` is falsy). -/
def jsTruthyNat : Option Nat → Bool
  | none => false
  | some n => n != 0

/-- Modelled from the spec: `src/utils/Validation.js` is not under `src/`.
Per the spec's data model, `data` must be a set of at most 4 unique
key/value attribute pairs; an empty object identifies no order, and a
non-object (`undefined`) is rejected. -/
def Validation.isDataObject : Option DataObj → Bool
  | none => false
  | some d => decide (0 < d.length ∧ d.length ≤ 4 ∧ (d.map Prod.fst).Nodup)

/-- Modelled from the spec: the address validator is a syntactic check of
the chain's address token format, a 32-character base-32 token. -/
def Validation.isWalletAddress : Option String → Bool
  | none => false
  | some s =>
    s.length == 32 &&
      s.toList.all fun c => ("ABCDEFGHIJKLMNOPQRSTUVWXYZ234567".toList).contains c

/-- Modelled from the spec: a provider is a non-empty namespace string. -/
def Validation.isServiceProvider : Option String → Bool
  | none => false
  | some s => !s.isEmpty

/-- Modelled from the spec: a unit is an opaque non-empty issuance receipt
identifier. -/
def Validation.isUnit : Option String → Bool
  | none => false
  | some s => !s.isEmpty

/-- Slot `i` of a row matches pair `kv` when `dataKey_i = kv.1 AND
dataValue_i = kv.2`; a NULL slot matches nothing, as in SQL. -/
def slotEq (r : Row) (i : Nat) (kv : String × String) : Bool :=
  r.datum.get? i == some kv

/-- Providerless matcher (the `getAttestationOrders` WHERE clause of the
variant in `src/start.js`, lines 185-194): for each requested entry one
parenthesised OR over the four slots, the per-entry clauses joined by AND.
An empty entry list produces the clause `1=1`. -/
def rowMatchesData (r : Row) (entries : DataObj) : Bool :=
  entries.all fun kv =>
    slotEq r 0 kv || slotEq r 1 kv || slotEq r 2 kv || slotEq r 3 kv

/-- Full row predicate of the providerless `getAttestationOrders` query:
data clauses, then optional `user_wallet_address = ?`, `id = ?` and
`status != "attested"` conjuncts. -/
def plRowPred (entries : DataObj) (address : Option String) (id : Option Nat)
    (excludeAttested : Bool) (r : Row) : Bool :=
  rowMatchesData r entries
    && (if jsTruthyStr address then r.user_wallet_address == address else true)
    && (match id with | some i => r.id == i | none => true)
    && (!excludeAttested || !(r.status == "attested"))

/-- Row inserted by `createAttestationOrder`.  The INSERT statements set the
data slots, plus `user_wallet_address` in the providerless variant and
`service_provider` in the provider-scoped one; the remaining columns take
their schema defaults.  The schema file is not under `src/`, so the
defaulted `status` is modelled from the spec: a new order is `pending`, or
`addressed` when an address is supplied. -/
def insertedRow (nextId : Nat) (sp : Option String) (data : DataObj)
    (address : Option String) : Row :=
  { id := nextId
    service_provider := sp
    datum := data
    user_wallet_address := if jsTruthyStr address then address else none
    user_device_address := none
    unit := none
    status := if jsTruthyStr address then "addressed" else "pending" }

namespace DbServiceV2

/-- Providerless `getAttestationOrders` (the `DbService` variant embedded in
`src/start.js`), in single-row mode (`multiple = false`, the only mode used
by the embedded callers): parameter validations, then `SELECT *` with the
dynamically built WHERE clause, returning the first matching row or `null`. -/
def getAttestationOrders (st : Store) (data : Option DataObj)
    (address : Option String) (id : Option Nat) (excludeAttested : Bool) :
    Except JsError (Option Row) :=
  if jsTruthyStr address && !Validation.isWalletAddress address then
    .error (.err "INVALID_DATA")
  else if (match id with | some i => decide (i = 0) | none => false) then
    .error (.err "INVALID_DATA")
  else if data.isSome && !Validation.isDataObject data then
    .error (.err "INVALID_DATA")
  else
    .ok ((st.rows.filter (plRowPred (data.getD []) address id excludeAttested)).head?)

/-- Providerless `createAttestationOrder` (`src/start.js` lines 43-62).
Note `excludeAttested: allowDuplicates` in the duplicate lookup, and the
`address || undefined` coercion of a falsy address. -/
def createAttestationOrder (st : Store) (data : Option DataObj)
    (address : Option String) (allowDuplicates : Bool) :
    Except JsError (Nat × Store) :=
  if !Validation.isDataObject data then .error (.err "INVALID_DATA")
  else if jsTruthyStr address && !Validation.isWalletAddress address then
    .error (.err "INVALID_DATA")
  else
    match getAttestationOrders st data
        (if jsTruthyStr address then address else none) none allowDuplicates with
    | .error e => .error e
    | .ok none =>
        .ok (st.nextId,
          { rows := st.rows ++ [insertedRow st.nextId none (data.getD []) address]
            nextId := st.nextId + 1 })
    | .ok (some o) =>
        if !allowDuplicates then .error (.err "ALREADY_EXISTS")
        else .ok (o.id, st)

/-- Providerless `updateWalletAddressInAttestationOrder` (`src/start.js`
lines 94-111): lookup with `excludeAttested: true`, then UPDATE guarded by
`status != 'attested' AND id = ?`. -/
def updateWalletAddressInAttestationOrder (st : Store) (data : Option DataObj)
    (walletAddress : Option String) : Except JsError Store :=
  if Validation.isWalletAddress walletAddress && Validation.isDataObject data then
    match getAttestationOrders st data none none true with
    | .error e => .error e
    | .ok (some o) =>
        if o.status == "attested" then .error (.err "ALREADY_ATTESTED")
        else .ok { st with rows := st.rows.map fun r =>
          if !(r.status == "attested") && r.id == o.id then
            { r with user_wallet_address := walletAddress, status := "addressed" }
          else r }
    | .ok none => .error (.err "ORDER_NOT_FOUND")
  else .error (.err "INVALID_DATA")

/-- Providerless `removeWalletAddressInAttestationOrder` (`src/start.js`
lines 70-84): lookup with the address filter and `excludeAttested: true`,
then UPDATE guarded only by `id = ?`. -/
def removeWalletAddressInAttestationOrder (st : Store) (data : Option DataObj)
    (address : Option String) : Except JsError Store :=
  if !Validation.isDataObject data then .error (.err "INVALID_DATA")
  else
    match getAttestationOrders st data address none true with
    | .error e => .error e
    | .ok (some o) =>
        if !(jsTruthyStr o.user_wallet_address) then .error (.err "ADDRESS_NOT_FOUND")
        else if o.status == "attested" || jsTruthyStr o.unit then
          .error (.err "ALREADY_ATTESTED")
        else .ok { st with rows := st.rows.map fun r =>
          if r.id == o.id then
            { r with user_wallet_address := none, status := "pending" }
          else r }
    | .ok none => .error (.err "ADDRESS_NOT_FOUND")

/-- Providerless `updateUnitAndChangeStatus` (`src/start.js` lines 136-153):
lookup with address filter and `excludeAttested: true`, then UPDATE guarded
by `id = ? AND user_wallet_address = ?`. -/
def updateUnitAndChangeStatus (st : Store) (data : Option DataObj)
    (address : Option String) (unit : Option String) : Except JsError Store :=
  if Validation.isUnit unit && Validation.isWalletAddress address
      && Validation.isDataObject data then
    match getAttestationOrders st data address none true with
    | .error e => .error e
    | .ok (some o) =>
        .ok { st with rows := st.rows.map fun r =>
          if r.id == o.id && r.user_wallet_address == address then
            { r with unit := unit, status := "attested" }
          else r }
    | .ok none => .error (.err "ORDER_NOT_FOUND")
  else .error (.err "INVALID_DATA")

/-- Providerless `updateDeviceAddressInAttestationOrder` (`src/start.js`
lines 120-126): UPDATE guarded by `status != 'attested' AND id = ?`. -/
def updateDeviceAddressInAttestationOrder (st : Store) (orderId : Option Nat)
    (deviceAddress : Option String) : Except JsError Store :=
  if jsTruthyNat orderId && jsTruthyStr deviceAddress then
    .ok { st with rows := st.rows.map fun r =>
      if !(r.status == "attested") && r.id == orderId.getD 0 then
        { r with user_device_address := deviceAddress }
      else r }
  else .error (.err "INVALID_DATA")

end DbServiceV2

/-- Result value of the provider-scoped `getAttestationOrders` in single-row
mode: a found row, `null`, or a returned (not thrown) `ErrorWithMessage`. -/
inductive ScopedRet where
  | row (r : Row)
  | null
  | errObj (code : String)
deriving DecidableEq, Repr

/-- JavaScript truthiness of a `ScopedRet` value: both a found row and a
returned error object are truthy; `null` is falsy. -/
def ScopedRet.jsTruthy : ScopedRet → Bool
  | .null => false
  | _ => true

/-- Tail of the provider-scoped WHERE clause, parsed with SQL precedence
(AND binds tighter than OR).  For every requested entry the source appends
the text ` AND (slot0) OR (slot1) OR (slot2) OR (slot3)` after the clause
`service_provider = ?`, and afterwards appends ` AND user_wallet_address = ?`
and/or ` AND status != "attested"`; no parentheses surround the OR group.
The OR-operands of the parsed expression are therefore:
`service_provider = sp AND slot0(e1)`; then for each entry `slot1(ei)`,
`slot2(ei)`, and `slot3(ei) AND slot0(e(i+1))` bridging consecutive entries;
and finally `slot3(en) AND addrFilter AND notAttestedFilter`.  This
function produces every operand after the first. -/
def scMatchTail (r : Row) (aOk eOk : Bool) : DataObj → Bool
  | [] => false
  | [e] => slotEq r 1 e || slotEq r 2 e || (slotEq r 3 e && aOk && eOk)
  | e :: e2 :: rest =>
      slotEq r 1 e || slotEq r 2 e || (slotEq r 3 e && slotEq r 0 e2)
        || scMatchTail r aOk eOk (e2 :: rest)

/-- Full provider-scoped row predicate (`src/db/DbService.js` lines
149-164), including the operator-precedence effect described at
`scMatchTail`.  With no data entries the query is a plain conjunction. -/
def scRowPred (sp : String) (entries : DataObj) (address : Option String)
    (excludeAttested : Bool) (r : Row) : Bool :=
  let aOk := if jsTruthyStr address then r.user_wallet_address == address else true
  let eOk := !excludeAttested || !(r.status == "attested")
  match entries with
  | [] => r.service_provider == some sp && aOk && eOk
  | e :: _ =>
      (r.service_provider == some sp && slotEq r 0 e) || scMatchTail r aOk eOk entries

namespace DbService

/-- Provider-scoped `getAttestationOrders` (`src/db/DbService.js` lines
132-175), single-row mode.  An invalid provider or wallet address is
thrown; an invalid data object is RETURNED as an `ErrorWithMessage` value
rather than thrown. -/
def getAttestationOrders (st : Store) (serviceProvider : Option String)
    (data : Option DataObj) (address : Option String) (excludeAttested : Bool) :
    Except JsError ScopedRet :=
  if !Validation.isServiceProvider serviceProvider then .error (.err "INVALID_DATA")
  else if jsTruthyStr address && !Validation.isWalletAddress address then
    .error (.err "INVALID_DATA")
  else if !Validation.isDataObject data then .ok (.errObj "INVALID_DATA")
  else
    match (st.rows.filter
        (scRowPred (serviceProvider.getD "") (data.getD []) address excludeAttested)).head? with
    | some r => .ok (.row r)
    | none => .ok .null

/-- Result of the provider-scoped `createAttestationOrder`: an id, a
returned `ErrorWithMessage` value, or `undefined` (the value of reading
`.id` off a returned error object). -/
inductive ScopedCreateRet where
  | idVal (n : Nat)
  | errObj (code : String)
  | undef
deriving DecidableEq, Repr

/-- Provider-scoped `createAttestationOrder` (`src/db/DbService.js` lines
19-37).  An invalid data object is RETURNED as an `ErrorWithMessage`.  When
a duplicate is found and `allowDuplicates` is false, the source throws
`new ErrorWithMessage('Order already exists', { code: 'ALREADY_EXISTS',
status: order.status, username, user_id: userId, ... })`; the identifiers
`username` and `userId` are declared nowhere in the file, so evaluating the
argument object raises `ReferenceError: username is not defined` before any
`ALREADY_EXISTS` error can be constructed. -/
def createAttestationOrder (st : Store) (serviceProvider : Option String)
    (data : Option DataObj) (allowDuplicates : Bool) :
    Except JsError (ScopedCreateRet × Store) :=
  if !Validation.isDataObject data then .ok (.errObj "INVALID_DATA", st)
  else
    match getAttestationOrders st serviceProvider data none allowDuplicates with
    | .error e => .error e
    | .ok .null =>
        .ok (.idVal st.nextId,
          { rows := st.rows ++ [insertedRow st.nextId serviceProvider (data.getD []) none]
            nextId := st.nextId + 1 })
    | .ok ret =>
        if !allowDuplicates then .error (.referenceError "username")
        else
          match ret with
          | .row o => .ok (.idVal o.id, st)
          | _ => .ok (.undef, st)

/-- Outcome of a scoped void operation: completion, or a returned (not
thrown) `ErrorWithMessage` value. -/
inductive JsRet where
  | completed
  | errObj (code : String)
deriving DecidableEq, Repr

/-- Provider-scoped `removeWalletAddressInAttestationOrder`
(`src/db/DbService.js` lines 46-61): lookup with address filter and
`excludeAttested: true`, guards on the found order's address and status,
then UPDATE guarded by `service_provider = ? AND id = ?`.  A truthy
non-row lookup result (returned error object) falls into the
`!order.user_wallet_address` guard and throws `ADDRESS_NOT_FOUND`. -/
def removeWalletAddressInAttestationOrder (st : Store)
    (serviceProvider : Option String) (data : Option DataObj)
    (address : Option String) : Except JsError (JsRet × Store) :=
  if !Validation.isServiceProvider serviceProvider then .error (.err "INVALID_DATA")
  else if !Validation.isDataObject data then .ok (.errObj "INVALID_DATA", st)
  else
    match getAttestationOrders st serviceProvider data address true with
    | .error e => .error e
    | .ok (.row o) =>
        if !(jsTruthyStr o.user_wallet_address) then .error (.err "ADDRESS_NOT_FOUND")
        else if !(o.status == "addressed") then .error (.err "ALREADY_ATTESTED")
        else .ok (.completed, { st with rows := st.rows.map fun r =>
          if r.service_provider == serviceProvider && r.id == o.id then
            { r with user_wallet_address := none, status := "pending" }
          else r })
    | .ok .null => .error (.err "ADDRESS_NOT_FOUND")
    | .ok (.errObj _) => .error (.err "ADDRESS_NOT_FOUND")

/-- Provider-scoped `updateWalletAddressInAttestationOrder`
(`src/db/DbService.js` lines 72-90): parameter validations, lookup with
`excludeAttested: true` — which the precedence-bugged WHERE clause enforces
only on the last OR-operand, so an attested row can still be returned — an
`ALREADY_ATTESTED` guard on the found order, then UPDATE guarded by
`service_provider = ? AND status != 'attested' AND id = ?`.  A truthy
non-row lookup result would reach the UPDATE with `id = undefined`,
matching no row. -/
def updateWalletAddressInAttestationOrder (st : Store)
    (serviceProvider : Option String) (data : Option DataObj)
    (walletAddress : Option String) : Except JsError Store :=
  if Validation.isServiceProvider serviceProvider
      && Validation.isWalletAddress walletAddress
      && Validation.isDataObject data then
    match getAttestationOrders st serviceProvider data none true with
    | .error e => .error e
    | .ok (.row o) =>
        if o.status == "attested" then .error (.err "ALREADY_ATTESTED")
        else .ok { st with rows := st.rows.map fun r =>
          if r.service_provider == serviceProvider && !(r.status == "attested")
              && r.id == o.id then
            { r with user_wallet_address := walletAddress, status := "addressed" }
          else r }
    | .ok .null => .error (.err "ORDER_NOT_FOUND")
    | .ok (.errObj _) => .ok st
  else .error (.err "INVALID_DATA")

/-- Provider-scoped `updateUnitAndChangeStatus` (`src/db/DbService.js`
lines 101-119): parameter validations, lookup with address filter and
`excludeAttested: true`, then UPDATE guarded by `service_provider = ? AND
id = ? AND user_wallet_address = ?`.  A truthy non-row lookup result would
reach the UPDATE with `id = undefined`, matching no row. -/
def updateUnitAndChangeStatus (st : Store) (serviceProvider : Option String)
    (data : Option DataObj) (address : Option String) (unit : Option String) :
    Except JsError Store :=
  if Validation.isServiceProvider serviceProvider && Validation.isUnit unit
      && Validation.isWalletAddress address && Validation.isDataObject data then
    match getAttestationOrders st serviceProvider data address true with
    | .error e => .error e
    | .ok (.row o) =>
        .ok { st with rows := st.rows.map fun r =>
          if r.service_provider == serviceProvider && r.id == o.id
              && r.user_wallet_address == address then
            { r with unit := unit, status := "attested" }
          else r }
    | .ok .null => .error (.err "ORDER_NOT_FOUND")
    | .ok (.errObj _) => .ok st
  else .error (.err "INVALID_DATA")

end DbService

/-- Author entry of a signed envelope. -/
structure Author where
  address : String
deriving DecidableEq, Repr

/-- The inner signed payload after `JSON.parse(signed_message.trim())`:
the optional `message` property and the remaining properties (`const
{ message, ...data } = signedData`). -/
structure SignedData where
  message : Option String
  fields : DataObj
deriving DecidableEq, Repr

/-- The decoded base64 envelope together with the outcome of the host
ledger's signature check (`validation.validateSignedMessage`).
`signedPayload = none` models an inner payload whose parse throws (also a
missing or non-string `signed_message`). -/
structure SignedEnvelope where
  sigValid : Bool
  authors : List Author
  signedPayload : Option SignedData
deriving DecidableEq, Repr

/-- An inbound wallet event, classified by how far the free text parses:
no `(signed-message:...)` block, a block whose base64/JSON decode throws,
or a decoded envelope. -/
inductive Event where
  | noBlock
  | badOuterJson
  | msg (env : SignedEnvelope)
deriving DecidableEq, Repr

/-- Replies sent with `device.sendMessageToDevice`, one constructor per
dictionary entry reachable from the handler.  `alreadyAttestedNotice` is
the notice the already-attested branch intends to send; it is never
constructed because evaluating its arguments raises a `ReferenceError`
(see `verifyHandler`). -/
inductive Reply where
  | invalidFormat
  | unknownError
  | validationFailed
  | alreadyAttestedNotice
  | attestSuccessNotice
  | unitSent (u : String)
  | mismatchData
  | cannotFindOrder
  | mismatchAddress
deriving DecidableEq, Repr

/-- JS `s.includes(pat)` for a non-empty pattern. -/
def jsIncludes (s pat : String) : Bool := (s.splitOn pat).length != 1

/-- Claimed-address resolution (protocol step 4): when a truthy `message`
contains the canonical ownership phrase the address is extracted from it
and must validate (`Except.error` models the INVALID_FORMAT reply for an
invalid extracted token); otherwise the `address` property of the payload
is used.  JS `String.replace` with a string pattern replaces the first
occurrence while Lean's `String.replace` replaces every occurrence; the
two agree on every payload with at most one occurrence of the phrase. -/
def resolveClaimAddress (message : Option String) (fields : DataObj) :
    Except Unit (Option String) :=
  match message with
  | some m =>
      if !m.isEmpty && jsIncludes m "I own the address:" then
        if Validation.isWalletAddress (some ((m.replace "I own the address: " "").trim)) then
          .ok (some ((m.replace "I own the address: " "").trim))
        else .error ()
      else .ok (fields.lookup "address")
  | none => .ok (fields.lookup "address")

/-- Modelled from the spec: `src/utils/transformDataValuesToObject.js` is
not under `src/`.  Per the spec's data model the stored attribute set lives
in the fixed `dataKey_i`/`dataValue_i` slots; the helper reconstructs the
stored attribute object from a row's populated slots. -/
def transformDataValuesToObject (r : Row) : DataObj := r.datum

/-- Lodash `isEqual` on two plain objects with unique keys: equality of
their entry sets. -/
def objEq (a b : DataObj) : Bool :=
  (a.all fun kv => b.contains kv) && (b.all fun kv => a.contains kv)

/-- Default provider: `conf.serviceProvider || 'default'`; configuration is
an external collaborator, absent in the embedded core. -/
def defaultServiceProvider : String := "default"

/-- Finalisation branch of the handler (protocol step 8): the success
notice is sent first, external issuance runs (its outcome is the
`issueResult` argument), then `DbService.updateUnitAndChangeStatus(
data.provider, data, address, unit)`; a throw from either is caught by the
inner catch and reported as the generic transient reply. -/
def finalizeBranch (st : Store) (sd : SignedData) (addr : Option String)
    (issueResult : Except Unit String) : List Reply × Store :=
  match issueResult with
  | .error _ => ([.attestSuccessNotice, .unknownError], st)
  | .ok u =>
      match DbService.updateUnitAndChangeStatus st (sd.fields.lookup "provider")
          (some sd.fields) addr (some u) with
      | .error _ => ([.attestSuccessNotice, .unknownError], st)
      | .ok st2 => ([.attestSuccessNotice, .unitSent u], st2)

/-- The wallet verification handler (`src/unnamed/part_000`), returning the
messages sent to the device in order, and the resulting store.  Notable
embedded behaviours, each traceable to the source: a claim with a falsy
address proceeds to order lookup (`!address || walletAddress === address`);
a throw from `getAttestationOrders` is caught by the outer catch and
reported as the invalid-format reply; the already-attested branch evaluates
`{ username, userId: id }` whose identifiers are declared nowhere in the
file, raising a `ReferenceError` that the outer catch turns into the
invalid-format reply; a truthy returned error object from the lookup enters
the found-order branch, where its undefined slots and provider compare
against the claim. -/
def verifyHandler (st : Store) (ev : Event) (issueResult : Except Unit String) :
    List Reply × Store :=
  match ev with
  | .noBlock => ([.invalidFormat], st)
  | .badOuterJson => ([.unknownError], st)
  | .msg env =>
    if !env.sigValid then ([.validationFailed], st)
    else
      match env.authors with
      | [] => ([.validationFailed], st)
      | author :: _ =>
        match env.signedPayload with
        | none => ([.invalidFormat], st)
        | some sd =>
          match resolveClaimAddress sd.message sd.fields with
          | .error _ => ([.invalidFormat], st)
          | .ok addr =>
            if !jsTruthyStr addr || addr == some author.address then
              match DbService.getAttestationOrders st (some defaultServiceProvider)
                  (some sd.fields) addr false with
              | .error _ => ([.invalidFormat], st)
              | .ok (.row o) =>
                  if o.status == "attested" then ([.invalidFormat], st)
                  else if objEq (transformDataValuesToObject o) sd.fields
                      && (sd.fields.lookup "provider" == o.service_provider) then
                    finalizeBranch st sd addr issueResult
                  else ([.mismatchData], st)
              | .ok (.errObj _) =>
                  if objEq [] sd.fields
                      && (sd.fields.lookup "provider" == (none : Option String)) then
                    finalizeBranch st sd addr issueResult
                  else ([.mismatchData], st)
              | .ok .null => ([.cannotFindOrder], st)
            else ([.mismatchAddress], st)

/-- Lifecycle operations quantified over by the terminal-status invariant:
the providerless store operations plus the provider-scoped unbind and
finalize called from the verification flow. -/
inductive Op where
  | create (data : Option DataObj) (address : Option String) (allowDup : Bool)
  | bind (data : Option DataObj) (address : Option String)
  | unbind (data : Option DataObj) (address : Option String)
  | finalize (data : Option DataObj) (address : Option String) (unit : Option String)
  | rebindDevice (orderId : Option Nat) (deviceAddress : Option String)
  | scUnbind (sp : Option String) (data : Option DataObj) (address : Option String)
  | scFinalize (sp : Option String) (data : Option DataObj) (address : Option String)
      (unit : Option String)

/-- Resulting store of one lifecycle operation; a thrown error leaves the
store untouched, since every UPDATE or INSERT in the sources is the last
step of its operation. -/
def applyOp (st : Store) : Op → Store
  | .create d a dup =>
      match DbServiceV2.createAttestationOrder st d a dup with
      | .ok (_, st2) => st2
      | .error _ => st
  | .bind d a =>
      match DbServiceV2.updateWalletAddressInAttestationOrder st d a with
      | .ok st2 => st2
      | .error _ => st
  | .unbind d a =>
      match DbServiceV2.removeWalletAddressInAttestationOrder st d a with
      | .ok st2 => st2
      | .error _ => st
  | .finalize d a u =>
      match DbServiceV2.updateUnitAndChangeStatus st d a u with
      | .ok st2 => st2
      | .error _ => st
  | .rebindDevice oid dev =>
      match DbServiceV2.updateDeviceAddressInAttestationOrder st oid dev with
      | .ok st2 => st2
      | .error _ => st
  | .scUnbind sp d a =>
      match DbService.removeWalletAddressInAttestationOrder st sp d a with
      | .ok (_, st2) => st2
      | .error _ => st
  | .scFinalize sp d a u =>
      match DbService.updateUnitAndChangeStatus st sp d a u with
      | .ok st2 => st2
      | .error _ => st

/-- Matching as the spec's words demand it (section 4.1): true set equality
between the caller's attribute set and the order's stored attribute set.
This definition follows the spec, not the source, and exists only to be
compared with `rowMatchesData`. -/
def specSetEqualityMatch (r : Row) (entries : DataObj) : Bool :=
  objEq r.datum entries

/-- A syntactically valid wallet address used by concrete instances. -/
def addrA : String := "AAAAAAAAAAAAAAAAAAAAAAAAAAAAAAAA"

/-- A second, different valid wallet address. -/
def addrB : String := "BBBBBBBBBBBBBBBBBBBBBBBBBBBBBBBB"

/-- The empty store. -/
def stEmpty : Store := ⟨[], 1⟩

/-- A row storing the two attribute pairs a=1 and b=2. -/
def rowAB : Row := ⟨1, none, [("a", "1"), ("b", "2")], none, none, none, "pending"⟩

/-- A provider-scoped store with one pending order for data a=1. -/
def stScopedPending : Store :=
  ⟨[⟨1, some "default", [("a", "1")], none, none, none, "pending"⟩], 2⟩

/-- A provider-scoped store whose only order, for data a=1, is attested. -/
def stScopedAttested : Store :=
  ⟨[⟨1, some "default", [("a", "1")], some addrA, none, some "U1", "attested"⟩], 2⟩

/-- A provider-scoped row whose slots store x=9 and a=1: a=1 sits in slot 1
and nothing stores b=2. -/
def rowXA : Row := ⟨1, some "default", [("x", "9"), ("a", "1")], none, none, none, "pending"⟩

/-- A provider-scoped store holding only `rowXA`. -/
def stScopedXA : Store := ⟨[rowXA], 2⟩

/-- A providerless store whose only order, for data a=1, is attested. -/
def stAttestedNP : Store :=
  ⟨[⟨1, none, [("a", "1")], some addrA, none, some "U1", "attested"⟩], 2⟩

/-- A providerless store with one pending, unaddressed order for data a=1. -/
def stPendingNP : Store := ⟨[⟨1, none, [("a", "1")], none, none, none, "pending"⟩], 2⟩

/-- A data object with five distinct keys: too large to validate. -/
def bad5 : DataObj := [("k1", "1"), ("k2", "2"), ("k3", "3"), ("k4", "4"), ("k5", "5")]

/-- A signature-valid event whose claim has a five-key (invalid) data
payload and no address property. -/
def evFields5 : Event := .msg ⟨true, [⟨addrA⟩], some ⟨none, bad5⟩⟩

/-- A signature-valid event whose claim carries no address at all. -/
def evNoClaimAddr : Event := .msg ⟨true, [⟨addrA⟩], some ⟨none, [("a", "1")]⟩⟩

/-- A signature-valid event whose claimed address property differs from the
signing author's address. -/
def evWrongAddr : Event :=
  .msg ⟨true, [⟨addrA⟩], some ⟨none, [("address", addrB), ("a", "1")]⟩⟩

/-- Property transported by the terminal-status invariant: the store `st2`
still holds a row with `r`'s id, still attested, with the same wallet
address and with a unit still present whenever `r` had one. -/
def attestedPreserved (st2 : Store) (r : Row) : Prop :=
  ∃ r2 ∈ st2.rows, r2.id = r.id ∧ r2.status = "attested"
    ∧ r2.user_wallet_address = r.user_wallet_address
    ∧ (r.unit.isSome = true → r2.unit.isSome = true)

/-- Helper: a list maps to itself under a function fixing all its members. -/
theorem list_map_fixes {α : Type} (f : α → α) (l : List α) (h : ∀ a ∈ l, f a = a) :
    l.map f = l := by
  induction l with
  | nil => rfl
  | cons x xs ih =>
      simp only [List.map_cons, h x (List.mem_cons_self x xs),
        ih (fun a ha => h a (List.mem_cons_of_mem x ha))]

/-- Helper: the head of a list, when present, is a member. -/
theorem mem_of_head_some {α : Type} {l : List α} {a : α} (h : l.head? = some a) :
    a ∈ l := by
  cases l <;> simp_all

/-- Helper: a member of a list of length at most four sits in one of the
first four positions. -/
theorem mem_first_four {α : Type} {l : List α} {a : α} (hlen : l.length ≤ 4)
    (h : a ∈ l) : ∃ n, n < 4 ∧ l.get? n = some a := by
  obtain ⟨n, hn⟩ := List.mem_iff_get?.mp h
  exact ⟨n, by have := (List.get?_eq_some.mp hn).1; omega, hn⟩

/-- Helper: a freshly inserted row matches its own data under the
providerless matcher, provided the data fits the four slots. -/
theorem rowMatchesData_insertedRow (nid : Nat) (sp : Option String) (D : DataObj)
    (addr : Option String) (hlen : D.length ≤ 4) :
    rowMatchesData (insertedRow nid sp D addr) D = true := by
  unfold rowMatchesData
  rw [List.all_eq_true]
  intro kv hkv
  obtain ⟨n, hn4, hget⟩ := mem_first_four hlen hkv
  have hdat : (insertedRow nid sp D addr).datum = D := rfl
  unfold slotEq
  rw [hdat]
  simp only [Bool.or_eq_true, beq_iff_eq]
  interval_cases n
  · exact Or.inl (Or.inl (Or.inl hget))
  · exact Or.inl (Or.inl (Or.inr hget))
  · exact Or.inl (Or.inr hget)
  · exact Or.inr hget

/-- Helper: in the parsed provider-scoped WHERE clause, every entry's
slot-1 and slot-2 comparisons stand as OR-operands of their own, free of
the provider, address and status conjuncts, so a single hit there decides
the whole tail. -/
theorem scMatchTail_of_mid_hit (r : Row) (aOk eOk : Bool) (entries : DataObj)
    (kv : String × String) (hmem : kv ∈ entries)
    (hhit : slotEq r 1 kv = true ∨ slotEq r 2 kv = true) :
    scMatchTail r aOk eOk entries = true := by
  induction entries with
  | nil => cases hmem
  | cons e rest ih =>
      rcases List.mem_cons.mp hmem with rfl | hmx
      · cases rest with
        | nil =>
            unfold scMatchTail
            rcases hhit with h | h <;> simp [h]
        | cons e2 r2 =>
            unfold scMatchTail
            rcases hhit with h | h <;> simp [h]
      · cases rest with
        | nil => cases hmx
        | cons e2 r2 =>
            unfold scMatchTail
            have hih := ih hmx
            simp [hih]

/-- C1: corrected.  Amended claim: neither variant performs set equality.
The providerless matcher checks containment: each requested pair must
jointly equal some stored slot, while extra stored pairs never block a
match (first conjunct, an exact characterisation).  The provider-scoped
matcher is weaker still: because its OR chain is unparenthesised, any
single requested pair equal to slot 1 or slot 2 of a row matches the whole
filter on its own, regardless of the other requested pairs, of the
provider and of the address/status filters (second conjunct). -/
theorem matching_slot_semantics :
    (∀ (r : Row) (entries : DataObj),
        rowMatchesData r entries = true ↔
          ∀ kv ∈ entries, ∃ n, n < 4 ∧ r.datum.get? n = some kv)
    ∧ (∀ (r : Row) (sp : String) (entries : DataObj) (addr : Option String)
        (ex : Bool) (kv : String × String), kv ∈ entries →
        (slotEq r 1 kv = true ∨ slotEq r 2 kv = true) →
        scRowPred sp entries addr ex r = true) := by
  constructor
  · intro r entries
    unfold rowMatchesData slotEq
    rw [List.all_eq_true]
    constructor
    · intro h kv hkv
      have hh := h kv hkv
      simp only [Bool.or_eq_true, beq_iff_eq] at hh
      rcases hh with ((h0 | h1) | h2) | h3
      · exact ⟨0, by omega, h0⟩
      · exact ⟨1, by omega, h1⟩
      · exact ⟨2, by omega, h2⟩
      · exact ⟨3, by omega, h3⟩
    · intro h kv hkv
      obtain ⟨n, hn4, hget⟩ := h kv hkv
      simp only [Bool.or_eq_true, beq_iff_eq]
      interval_cases n
      · exact Or.inl (Or.inl (Or.inl hget))
      · exact Or.inl (Or.inl (Or.inr hget))
      · exact Or.inl (Or.inr hget)
      · exact Or.inr hget
  · intro r sp entries addr ex kv hmem hhit
    unfold scRowPred
    cases entries with
    | nil => cases hmem
    | cons e rest =>
        dsimp only
        rw [scMatchTail_of_mid_hit r _ _ (e :: rest) kv hmem hhit, Bool.or_true]

/-- C1: witness for the amended theorem: the providerless characterisation
instantiated at a concrete row, and the provider-scoped single-pair match
instantiated at the store whose row has a=1 in slot 1. -/
theorem matching_slot_semantics_witness :
    (rowMatchesData rowAB [("a", "1")] = true ↔
        ∀ kv ∈ [("a", "1")], ∃ n, n < 4 ∧ rowAB.datum.get? n = some kv)
      ∧ scRowPred "default" [("a", "1"), ("b", "2")] none false rowXA = true := by
  exact ⟨matching_slot_semantics.1 rowAB [("a", "1")],
    matching_slot_semantics.2 rowXA "default" [("a", "1"), ("b", "2")] none false
      ("a", "1") (by decide) (Or.inl (by decide))⟩

/-- C1: counterexample.  Two failures of set equality, one per variant: the
providerless query for the single pair a=1 returns the order storing the
two pairs a=1, b=2; and the provider-scoped query for the pairs a=1, b=2
returns the order whose slots store x=9 and a=1, although b=2 occupies no
slot at all — even the containment reading fails there. -/
theorem matching_not_set_equality_cex :
    (DbServiceV2.getAttestationOrders ⟨[rowAB], 2⟩ (some [("a", "1")]) none none false
        = .ok (some rowAB)
      ∧ specSetEqualityMatch rowAB [("a", "1")] = false)
      ∧ (DbService.getAttestationOrders stScopedXA (some "default")
            (some [("a", "1"), ("b", "2")]) none false = .ok (.row rowXA)
        ∧ rowXA.datum.contains ("b", "2") = false
        ∧ specSetEqualityMatch rowXA [("a", "1"), ("b", "2")] = false) := by
  exact ⟨⟨rfl, rfl⟩, rfl, rfl, rfl⟩

/-- C2: counterexample.  A signature-valid event whose claim carries no
address is processed past the address-match step: on an empty store it
reaches order lookup and replies with the order-not-found notice, not with
the mismatched-address notice. -/
theorem no_address_reaches_lookup_cex :
    verifyHandler stEmpty evNoClaimAddr (.ok "U") = ([.cannotFindOrder], stEmpty)
      ∧ Reply.cannotFindOrder ≠ Reply.mismatchAddress := by
  exact ⟨rfl, by decide⟩

/-- C3: the code evaluates `{ username, userId: id }` in the
already-attested branch, identifiers declared nowhere in the handler, so a
re-submitted valid signed message for an attested order raises a
`ReferenceError` that the outer catch converts into the invalid-format
reply; the promised already-attested notice is never sent.  The store is
left unchanged (zero writes), as the claim states. -/
theorem resubmit_attested_reference_error :
    verifyHandler stScopedAttested
        (.msg ⟨true, [⟨addrA⟩], some ⟨none, [("a", "1")]⟩⟩) (.ok "U2")
      = ([.invalidFormat], stScopedAttested) := by
  exact rfl

/-- C4: evaluating the provider-scoped `createAttestationOrder` at a store
holding a matching pending order, with `allowDuplicates = false`: the
`ALREADY_EXISTS` throw references the undeclared identifiers `username`
and `userId`, so the call raises `ReferenceError: username is not defined`
instead of the documented `ALREADY_EXISTS` error. -/
theorem scoped_create_duplicate_reference_error :
    DbService.createAttestationOrder stScopedPending (some "default")
        (some [("a", "1")]) false
      = .error (.referenceError "username") := by
  exact rfl

/-- C6: counterexample.  Binding an address on a store whose only matching
order is attested fails with `ORDER_NOT_FOUND` (the attested order is
filtered out of the lookup by `excludeAttested: true`), not with
`ALREADY_ATTESTED`; the same code is also not `ADDRESS_NOT_FOUND`. -/
theorem bindAddress_attested_cex :
    DbServiceV2.updateWalletAddressInAttestationOrder stAttestedNP
        (some [("a", "1")]) (some addrB)
      = .error (.err "ORDER_NOT_FOUND")
      ∧ JsError.err "ORDER_NOT_FOUND" ≠ JsError.err "ALREADY_ATTESTED"
      ∧ JsError.err "ORDER_NOT_FOUND" ≠ JsError.err "ADDRESS_NOT_FOUND" := by
  exact ⟨rfl, by decide, by decide⟩

/-- C7: counterexample.  Unbinding an attested order fails with
`ADDRESS_NOT_FOUND` (message 'Order not found or already attested'), not
with `ALREADY_ATTESTED`: the `excludeAttested: true` lookup never reaches
the `ALREADY_ATTESTED` guard. -/
theorem unbind_attested_cex :
    DbServiceV2.removeWalletAddressInAttestationOrder stAttestedNP
        (some [("a", "1")]) (some addrA)
      = .error (.err "ADDRESS_NOT_FOUND")
      ∧ JsError.err "ADDRESS_NOT_FOUND" ≠ JsError.err "ALREADY_ATTESTED" := by
  exact ⟨rfl, by decide⟩

/-- C10: the provider-scoped variant returns (rather than throws)
`ErrorWithMessage` values when the data object fails validation: the
lookup called without a data filter returns a truthy error object;
`createAttestationOrder` on an invalid data object likewise returns the
error object as its result; and a caller testing the lookup result for
truthiness — the verification handler — treats the error object as a found
order, replying with the data-mismatch notice instead of the
order-not-found notice. -/
theorem scoped_error_objects_returned_not_thrown :
    (DbService.getAttestationOrders stEmpty (some "default") none none false
        = .ok (.errObj "INVALID_DATA")
      ∧ (ScopedRet.errObj "INVALID_DATA").jsTruthy = true)
      ∧ DbService.createAttestationOrder stEmpty (some "default") (some bad5) true
          = .ok (.errObj "INVALID_DATA", stEmpty)
      ∧ verifyHandler stEmpty evFields5 (.ok "U") = ([.mismatchData], stEmpty) := by
  exact ⟨⟨rfl, rfl⟩, rfl, rfl⟩

/-- C2: amended claim, proved.  For every signature-valid inbound event
whose claim resolves to a present, non-empty address different from the
signing author's address, the handler replies MISMATCH_ADDRESS and stops:
the store is returned unchanged. -/
theorem mismatch_address_rejected (st : Store) (issue : Except Unit String)
    (sv : Bool) (author : Author) (rest : List Author) (pl : Option SignedData)
    (sd : SignedData) (X : String) :
    sv = true → pl = some sd →
    resolveClaimAddress sd.message sd.fields = .ok (some X) →
    X ≠ "" → X ≠ author.address →
    verifyHandler st (.msg ⟨sv, author :: rest, pl⟩) issue = ([.mismatchAddress], st) := by
  intro hsig hpl hres hne hneq
  subst hsig hpl
  have hemp : X.isEmpty = false := by
    rw [Bool.eq_false_iff]
    intro hh
    exact hne ((String.isEmpty_iff X).mp hh)
  have hbeq : (some X == some author.address) = false := by
    simp [hneq]
  unfold verifyHandler
  simp only [Bool.not_true, Bool.false_eq_true, if_false, hres, jsTruthyStr, hemp,
    Bool.not_false, hbeq, Bool.or_false, Bool.not_true, if_false]

/-- C2: witness for the amended theorem, at the concrete event whose claim
carries the address property addrB while the author signs as addrA. -/
theorem mismatch_address_rejected_witness :
    verifyHandler stEmpty evWrongAddr (.ok "U") = ([.mismatchAddress], stEmpty) := by
  exact mismatch_address_rejected stEmpty (.ok "U") true ⟨addrA⟩ []
    (some ⟨none, [("address", addrB), ("a", "1")]⟩) ⟨none, [("address", addrB), ("a", "1")]⟩
    addrB rfl rfl rfl (by decide) (by decide)

/-- C5: for every store and every valid attribute set D (at most 4 unique
keys), `createAttestationOrder(D, allowDuplicates = true)` called twice
returns the same order id both times, and the second call leaves the store
unchanged (no new row). -/
theorem createOrder_allowDup_idempotent (st : Store) (D : DataObj) (i : Nat) (st1 : Store)
    (hD : Validation.isDataObject (some D) = true)
    (h1 : DbServiceV2.createAttestationOrder st (some D) none true = .ok (i, st1)) :
    DbServiceV2.createAttestationOrder st1 (some D) none true = .ok (i, st1) := by
  have hlen : D.length ≤ 4 := by
    have := of_decide_eq_true hD
    exact this.2.1
  simp only [DbServiceV2.createAttestationOrder, DbServiceV2.getAttestationOrders,
    hD, jsTruthyStr, Bool.not_true, Bool.false_and, Bool.if_false_left,
    Option.isSome_some, Bool.true_and, Bool.and_false, Bool.false_eq_true,
    if_false, Option.getD_some] at h1 ⊢
  cases hh : (st.rows.filter (plRowPred D none none true)).head? with
  | some o =>
      rw [hh] at h1
      simp only [Bool.not_true, Bool.false_eq_true, if_false] at h1
      obtain ⟨rfl, rfl⟩ : o.id = i ∧ st = st1 := by
        cases h1
        exact ⟨rfl, rfl⟩
      rw [hh]
  | none =>
      rw [hh] at h1
      have hfil : st.rows.filter (plRowPred D none none true) = [] :=
        List.head?_eq_none_iff.mp hh
      obtain ⟨rfl, rfl⟩ :
          st.nextId = i
            ∧ (⟨st.rows ++ [insertedRow st.nextId none D none], st.nextId + 1⟩ : Store) = st1 := by
        cases h1
        exact ⟨rfl, rfl⟩
      have hnew : plRowPred D none none true (insertedRow st.nextId none D none) = true := by
        unfold plRowPred
        simp only [rowMatchesData_insertedRow st.nextId none D none hlen,
          jsTruthyStr, if_false, Bool.true_and, Bool.and_true]
        rfl
      rw [List.filter_append, hfil, List.nil_append]
      simp only [List.filter_cons, hnew, if_true, List.filter_nil, List.head?]
      rfl

/-- C5: witness.  The theorem applied to the empty store and the data
object with single pair a=1: the first call inserts row 1; the instantiated
conclusion is that the call on the resulting store returns the same id 1
and the same store. -/
theorem createOrder_allowDup_idempotent_witness :
    Validation.isDataObject (some [("a", "1")]) = true
      ∧ DbServiceV2.createAttestationOrder
          ⟨[insertedRow 1 none [("a", "1")] none], 2⟩ (some [("a", "1")]) none true
        = .ok (1, ⟨[insertedRow 1 none [("a", "1")] none], 2⟩) := by
  exact ⟨by decide, createOrder_allowDup_idempotent stEmpty [("a", "1")] 1
    ⟨[insertedRow 1 none [("a", "1")] none], 2⟩ (by decide) rfl⟩

/-- C6: amended claim, proved.  Both variants fail ORDER_NOT_FOUND (not
ADDRESS_NOT_FOUND) when the bind lookup finds no order, and on a
non-attested match the providerless variant stores the order with the new
wallet address and status 'addressed' (first conjunct).  The attested case
differs by variant: the providerless excludeAttested lookup filters an
attested order out, so it falls under ORDER_NOT_FOUND, while the
provider-scoped lookup's precedence bug lets it return the attested row,
upon which the live ALREADY_ATTESTED guard fires, as the original claim
said for that variant (second conjunct). -/
theorem bindAddress_behavior :
    (∀ (st : Store) (D : DataObj) (A : String),
      Validation.isDataObject (some D) = true →
      Validation.isWalletAddress (some A) = true →
      (DbServiceV2.getAttestationOrders st (some D) none none true = .ok none →
        DbServiceV2.updateWalletAddressInAttestationOrder st (some D) (some A)
          = .error (.err "ORDER_NOT_FOUND"))
      ∧ (∀ o, DbServiceV2.getAttestationOrders st (some D) none none true = .ok (some o) →
          o.status ≠ "attested"
            ∧ ∃ st1, DbServiceV2.updateWalletAddressInAttestationOrder st (some D) (some A)
                = .ok st1
              ∧ { o with user_wallet_address := some A, status := "addressed" } ∈ st1.rows))
    ∧ (∀ (st : Store) (sp : String) (D : DataObj) (A : String),
        Validation.isServiceProvider (some sp) = true →
        Validation.isDataObject (some D) = true →
        Validation.isWalletAddress (some A) = true →
        (DbService.getAttestationOrders st (some sp) (some D) none true = .ok .null →
          DbService.updateWalletAddressInAttestationOrder st (some sp) (some D) (some A)
            = .error (.err "ORDER_NOT_FOUND"))
        ∧ (∀ o, DbService.getAttestationOrders st (some sp) (some D) none true
              = .ok (.row o) → o.status = "attested" →
            DbService.updateWalletAddressInAttestationOrder st (some sp) (some D) (some A)
              = .error (.err "ALREADY_ATTESTED"))) := by
  constructor
  · intro st D A hD hA
    constructor
    · intro hnone
      unfold DbServiceV2.updateWalletAddressInAttestationOrder
      rw [hA, hD, hnone]
      rfl
    · intro o hsome
      have hs2 := hsome
      unfold DbServiceV2.getAttestationOrders at hs2
      simp only [jsTruthyStr, Bool.false_and, Bool.false_eq_true, if_false,
        Option.isSome_some, Bool.true_and, hD, Bool.not_true, Bool.and_false,
        Option.getD_some] at hs2
      have hhead : (st.rows.filter (plRowPred D none none true)).head? = some o :=
        Except.ok.inj hs2
      have hmem := mem_of_head_some hhead
      have hrows : o ∈ st.rows := (List.mem_filter.mp hmem).1
      have hstat : (o.status == "attested") = false := by
        have hp := (List.mem_filter.mp hmem).2
        unfold plRowPred at hp
        have hlast := ((Bool.and_eq_true _ _).mp hp).2
        simpa using hlast
      refine ⟨by simpa using hstat, ?_⟩
      unfold DbServiceV2.updateWalletAddressInAttestationOrder
      simp only [hA, hD, Bool.and_self, if_true, hsome, hstat, Bool.false_eq_true, if_false]
      refine ⟨_, rfl, ?_⟩
      have hmap := List.mem_map_of_mem
        (fun r => if !(r.status == "attested") && r.id == o.id then
          { r with user_wallet_address := some A, status := "addressed" } else r) hrows
      have hfo : (fun r => if !(r.status == "attested") && r.id == o.id then
          { r with user_wallet_address := some A, status := "addressed" } else r) o
          = { o with user_wallet_address := some A, status := "addressed" } := by
        simp only [hstat, Bool.not_false, beq_self_eq_true, Bool.and_self, if_true]
      rw [hfo] at hmap
      exact hmap
  · intro st sp D A hsp hD hA
    constructor
    · intro hnull
      unfold DbService.updateWalletAddressInAttestationOrder
      rw [hsp, hA, hD, hnull]
      rfl
    · intro o hrow hatt
      unfold DbService.updateWalletAddressInAttestationOrder
      simp only [hsp, hA, hD, Bool.and_self, if_true, hrow]
      rw [hatt]
      rfl

/-- Helper: a valid wallet address is non-empty. -/
theorem isWalletAddress_isEmpty_false {s : String}
    (h : Validation.isWalletAddress (some s) = true) : s.isEmpty = false := by
  unfold Validation.isWalletAddress at h
  have hlen := ((Bool.and_eq_true _ _).mp h).1
  rw [Bool.eq_false_iff]
  intro hh
  have h1 : s = "" := (String.isEmpty_iff s).mp hh
  rw [h1] at hlen
  simp at hlen

/-- Helper: mapping then filtering yields nothing when the function fixes
every member and the predicate rejects every member. -/
theorem filter_map_nil {α : Type} (f : α → α) (p : α → Bool) (l : List α)
    (h : ∀ a ∈ l, f a = a ∧ p a = false) : (l.map f).filter p = [] := by
  induction l with
  | nil => rfl
  | cons x xs ih =>
      have hx := h x (List.mem_cons_self x xs)
      simp only [List.map_cons, List.filter_cons, hx.1, hx.2, Bool.false_eq_true,
        if_false]
      exact ih fun a ha => h a (List.mem_cons_of_mem x ha)

/-- Helper: mapping then filtering a duplicate-free list isolates exactly
the image of the one member that survives the predicate. -/
theorem filter_map_single {α : Type} [DecidableEq α] (f : α → α) (p : α → Bool)
    (l : List α) (o oB : α) (hnd : l.Nodup) (hmem : o ∈ l) (hfo : f o = oB)
    (hp : p oB = true) (hothers : ∀ a ∈ l, a ≠ o → f a = a ∧ p a = false) :
    (l.map f).filter p = [oB] := by
  induction l with
  | nil => cases hmem
  | cons x xs ih =>
      rcases List.mem_cons.mp hmem with rfl | hmx
      · have hno : o ∉ xs := (List.nodup_cons.mp hnd).1
        simp only [List.map_cons, List.filter_cons, hfo, hp, if_true]
        have hnil : (xs.map f).filter p = [] :=
          filter_map_nil f p xs fun a ha =>
            hothers a (List.mem_cons_of_mem _ ha) fun he => hno (he ▸ ha)
        rw [hnil]
      · by_cases hxo : x = o
        · exact absurd hmx (hxo ▸ (List.nodup_cons.mp hnd).1)
        · have hx := hothers x (List.mem_cons_self x xs) hxo
          simp only [List.map_cons, List.filter_cons, hx.1, hx.2, Bool.false_eq_true,
            if_false]
          exact ih (List.nodup_cons.mp hnd).2 hmx
            fun a ha hne => hothers a (List.mem_cons_of_mem _ ha) hne

/-- C7: amended claim, proved.  First conjunct: on a well-formed store, for
a pending unaddressed order that is the unique candidate the unbind lookup
could select, bindAddress followed by unbindAddress returns exactly the
original store (status back to 'pending', wallet address cleared, nothing
else touched).  The attested case differs by variant.  Second conjunct:
in the providerless variant the correctly parenthesised excludeAttested
lookup never returns an attested order, so unbind fails ADDRESS_NOT_FOUND
('Order not found or already attested'), not ALREADY_ATTESTED.  Third
conjunct: in the provider-scoped variant the precedence-bugged lookup does
return the attested row, whose live status guard then throws
ALREADY_ATTESTED, as the original claim said for that variant. -/
theorem bind_unbind_roundtrip :
    (∀ (st : Store) (D : DataObj) (A : String) (o : Row), st.wf →
      Validation.isDataObject (some D) = true →
      Validation.isWalletAddress (some A) = true →
      DbServiceV2.getAttestationOrders st (some D) none none true = .ok (some o) →
      o.status = "pending" → o.user_wallet_address = none → o.unit = none →
      (∀ r ∈ st.rows, r ≠ o →
        ¬(rowMatchesData r D = true ∧ r.user_wallet_address = some A
            ∧ r.status ≠ "attested")) →
      ∃ st1, DbServiceV2.updateWalletAddressInAttestationOrder st (some D) (some A)
          = .ok st1
        ∧ DbServiceV2.removeWalletAddressInAttestationOrder st1 (some D) (some A)
          = .ok st)
    ∧ (∀ (st : Store) (D : DataObj) (A : String),
        Validation.isDataObject (some D) = true →
        DbServiceV2.getAttestationOrders st (some D) (some A) none true = .ok none →
        DbServiceV2.removeWalletAddressInAttestationOrder st (some D) (some A)
          = .error (.err "ADDRESS_NOT_FOUND"))
    ∧ (∀ (st : Store) (sp : String) (D : DataObj) (A : Option String) (o : Row),
        Validation.isServiceProvider (some sp) = true →
        Validation.isDataObject (some D) = true →
        DbService.getAttestationOrders st (some sp) (some D) A true = .ok (.row o) →
        jsTruthyStr o.user_wallet_address = true →
        (o.status == "addressed") = false →
        DbService.removeWalletAddressInAttestationOrder st (some sp) (some D) A
          = .error (.err "ALREADY_ATTESTED")) := by
  refine ⟨?_, ?_, ?_⟩
  · intro st D A o hwf hD hA hlook hstat hwal hunit hothers
    obtain ⟨rows, nid⟩ := st
    obtain ⟨oid, osp, odat, owal, odev, ouni, osta⟩ := o
    simp only at hstat hwal hunit
    subst hstat hwal hunit
    have hAne : A.isEmpty = false := isWalletAddress_isEmpty_false hA
    have hnd : rows.Nodup := List.Nodup.of_map Row.id hwf
    -- the two UPDATE functions
    set f : Row → Row := fun r =>
      if !(r.status == "attested") && r.id == oid then
        { r with user_wallet_address := some A, status := "addressed" }
      else r with hf
    set g : Row → Row := fun r =>
      if r.id == oid then { r with user_wallet_address := none, status := "pending" }
      else r with hg
    -- membership and matching facts from the bind lookup
    have hs2 := hlook
    unfold DbServiceV2.getAttestationOrders at hs2
    simp only [jsTruthyStr, Bool.false_and, Bool.false_eq_true, if_false,
      Option.isSome_some, Bool.true_and, hD, Bool.not_true, Bool.and_false,
      Option.getD_some] at hs2
    have hhead : (rows.filter (plRowPred D none none true)).head?
        = some ⟨oid, osp, odat, none, odev, none, "pending"⟩ := Except.ok.inj hs2
    have hmem := mem_of_head_some hhead
    have hrowsmem : (⟨oid, osp, odat, none, odev, none, "pending"⟩ : Row) ∈ rows :=
      (List.mem_filter.mp hmem).1
    have hmatch : rowMatchesData ⟨oid, osp, odat, none, odev, none, "pending"⟩ D = true := by
      have hp := (List.mem_filter.mp hmem).2
      unfold plRowPred at hp
      exact (((Bool.and_eq_true _ _).mp
        (((Bool.and_eq_true _ _).mp (((Bool.and_eq_true _ _).mp hp).1)).1)).1)
    -- the bind step
    have hbind : DbServiceV2.updateWalletAddressInAttestationOrder ⟨rows, nid⟩
        (some D) (some A) = .ok ⟨rows.map f, nid⟩ := by
      unfold DbServiceV2.updateWalletAddressInAttestationOrder
      simp only [hA, hD, Bool.and_self, if_true, hlook]
      rfl
    -- the bound row and the unbind lookup predicate
    have hfoB : f ⟨oid, osp, odat, none, odev, none, "pending"⟩
        = ⟨oid, osp, odat, some A, odev, none, "addressed"⟩ := by
      simp [hf]
    have hpOB : plRowPred D (some A) none true
        ⟨oid, osp, odat, some A, odev, none, "addressed"⟩ = true := by
      unfold plRowPred
      have hm : rowMatchesData ⟨oid, osp, odat, some A, odev, none, "addressed"⟩ D
          = true := hmatch
      simp [hm, jsTruthyStr, hAne]
    have hothersB : ∀ r ∈ rows, r ≠ ⟨oid, osp, odat, none, odev, none, "pending"⟩ →
        f r = r ∧ plRowPred D (some A) none true r = false := by
      intro r hr hne
      have hid : (r.id == oid) = false := by
        rw [Bool.eq_false_iff]
        intro hh
        exact hne (List.inj_on_of_nodup_map hwf hr hrowsmem (by simpa using hh))
      have hguard : (!(r.status == "attested") && r.id == oid) = false := by
        rw [hid, Bool.and_false]
      constructor
      · simp only [hf, hguard, Bool.false_eq_true, if_false]
      · cases hpr : plRowPred D (some A) none true r
        · rfl
        · exfalso
          unfold plRowPred at hpr
          have h1 := ((Bool.and_eq_true _ _).mp hpr).1
          have h4 := ((Bool.and_eq_true _ _).mp hpr).2
          have h2 := ((Bool.and_eq_true _ _).mp h1).1
          have hm := ((Bool.and_eq_true _ _).mp h2).1
          have haddr := ((Bool.and_eq_true _ _).mp h2).2
          refine hothers r hr hne ⟨hm, ?_, ?_⟩
          · simp only [jsTruthyStr, hAne, Bool.not_false, if_true] at haddr
            exact eq_of_beq haddr
          · intro hcon
            rw [hcon] at h4
            simp at h4
    have hfil : ((rows.map f).filter (plRowPred D (some A) none true))
        = [⟨oid, osp, odat, some A, odev, none, "addressed"⟩] :=
      filter_map_single f (plRowPred D (some A) none true) rows
        ⟨oid, osp, odat, none, odev, none, "pending"⟩
        ⟨oid, osp, odat, some A, odev, none, "addressed"⟩
        hnd hrowsmem hfoB hpOB hothersB
    -- the unbind lookup
    have hlook2 : DbServiceV2.getAttestationOrders ⟨rows.map f, nid⟩ (some D)
        (some A) none true
        = .ok (some ⟨oid, osp, odat, some A, odev, none, "addressed"⟩) := by
      unfold DbServiceV2.getAttestationOrders
      simp only [jsTruthyStr, hAne, Bool.not_false, Bool.true_and, hA, Bool.not_true,
        Bool.and_false, Bool.false_eq_true, if_false, Option.isSome_some, hD,
        Option.getD_some]
      rw [hfil]
      rfl
    -- the unbind step
    have hrem : DbServiceV2.removeWalletAddressInAttestationOrder ⟨rows.map f, nid⟩
        (some D) (some A) = .ok ⟨(rows.map f).map g, nid⟩ := by
      unfold DbServiceV2.removeWalletAddressInAttestationOrder
      simp only [hD, Bool.not_true, Bool.false_eq_true, if_false, hlook2, jsTruthyStr,
        hAne, Bool.not_false]
      rfl
    -- the round trip restores the original rows
    have hgf : (rows.map f).map g = rows := by
      rw [List.map_map]
      apply list_map_fixes
      intro r hr
      by_cases hro : r = ⟨oid, osp, odat, none, odev, none, "pending"⟩
      · subst hro
        simp only [Function.comp_apply, hfoB, hg]
        simp
      · have hx := hothersB r hr hro
        have hid : (r.id == oid) = false := by
          rw [Bool.eq_false_iff]
          intro hh
          exact hro (List.inj_on_of_nodup_map hwf hr hrowsmem (by simpa using hh))
        simp only [Function.comp_apply, hx.1, hg, hid, Bool.false_eq_true, if_false]
    exact ⟨⟨rows.map f, nid⟩, hbind, by rw [hrem, hgf]⟩
  · intro st D A hD hnone
    unfold DbServiceV2.removeWalletAddressInAttestationOrder
    rw [hD, hnone]
    rfl
  · intro st sp D A o hsp hD hrow hw hna
    unfold DbService.removeWalletAddressInAttestationOrder
    simp only [hsp, hD, Bool.not_true, Bool.false_eq_true, if_false, hrow, hw,
      Bool.not_false, hna]
    rfl

/-- C6: witness.  The providerless half applied to the single pending order
for a=1, and the provider-scoped half applied to the attested single-order
store, on which the precedence-bugged lookup returns the attested row and
the live guard throws ALREADY_ATTESTED. -/
theorem bindAddress_behavior_witness :
    ((⟨1, none, [("a", "1")], none, none, none, "pending"⟩ : Row).status ≠ "attested"
      ∧ ∃ st1, DbServiceV2.updateWalletAddressInAttestationOrder stPendingNP
          (some [("a", "1")]) (some addrA) = .ok st1
        ∧ ({ (⟨1, none, [("a", "1")], none, none, none, "pending"⟩ : Row) with
              user_wallet_address := some addrA, status := "addressed" }) ∈ st1.rows)
      ∧ DbService.updateWalletAddressInAttestationOrder stScopedAttested
          (some "default") (some [("a", "1")]) (some addrB)
        = .error (.err "ALREADY_ATTESTED") := by
  exact ⟨(bindAddress_behavior.1 stPendingNP [("a", "1")] addrA (by decide) (by decide)).2
      ⟨1, none, [("a", "1")], none, none, none, "pending"⟩ rfl,
    (bindAddress_behavior.2 stScopedAttested "default" [("a", "1")] addrB
        (by decide) (by decide) (by decide)).2
      ⟨1, some "default", [("a", "1")], some addrA, none, some "U1", "attested"⟩ rfl rfl⟩

/-- C7: witness.  The round trip instantiated at the single-order pending
store (binding addrA and unbinding it returns exactly the original store),
the providerless attested case instantiated at the attested store (where
the lookup finds nothing and unbind fails ADDRESS_NOT_FOUND), and the
provider-scoped attested case instantiated at the scoped attested store
(where the bugged lookup returns the attested row and unbind fails
ALREADY_ATTESTED). -/
theorem bind_unbind_roundtrip_witness :
    (∃ st1, DbServiceV2.updateWalletAddressInAttestationOrder stPendingNP
        (some [("a", "1")]) (some addrA) = .ok st1
      ∧ DbServiceV2.removeWalletAddressInAttestationOrder st1 (some [("a", "1")])
          (some addrA) = .ok stPendingNP)
      ∧ DbServiceV2.removeWalletAddressInAttestationOrder stAttestedNP
          (some [("a", "1")]) (some addrA) = .error (.err "ADDRESS_NOT_FOUND")
      ∧ DbService.removeWalletAddressInAttestationOrder stScopedAttested
          (some "default") (some [("a", "1")]) (some addrA)
        = .error (.err "ALREADY_ATTESTED") := by
  exact ⟨bind_unbind_roundtrip.1 stPendingNP [("a", "1")] addrA
      ⟨1, none, [("a", "1")], none, none, none, "pending"⟩ (by decide) (by decide)
      (by decide) rfl rfl rfl rfl (by decide),
    bind_unbind_roundtrip.2.1 stAttestedNP [("a", "1")] addrA (by decide) rfl,
    bind_unbind_roundtrip.2.2 stScopedAttested "default" [("a", "1")] (some addrA)
      ⟨1, some "default", [("a", "1")], some addrA, none, some "U1", "attested"⟩
      (by decide) (by decide) rfl (by decide) (by decide)⟩

/-- Helper: the finalize branch either leaves the store unchanged (issuance
failure, or a throw from the status update) or its reply trace is the
success notice followed by the unit notice. -/
theorem finalizeBranch_frame (st : Store) (sd : SignedData) (addr : Option String)
    (issue : Except Unit String) :
    (finalizeBranch st sd addr issue).2 = st
      ∨ ∃ u, (finalizeBranch st sd addr issue).1
          = [Reply.attestSuccessNotice, Reply.unitSent u] := by
  unfold finalizeBranch
  rcases issue with _ | u
  · exact Or.inl rfl
  · dsimp only
    cases h : DbService.updateUnitAndChangeStatus st (sd.fields.lookup "provider")
        (some sd.fields) addr (some u) with
    | error e => exact Or.inl rfl
    | ok st2 => exact Or.inr ⟨u, rfl⟩

/-- Helper: every run of the verification handler either leaves the store
unchanged, or sends exactly the success notice followed by the unit notice
(the finalize path). -/
theorem verifyHandler_mutation_shape (st : Store) (ev : Event)
    (issue : Except Unit String) :
    (verifyHandler st ev issue).2 = st
      ∨ ∃ u, (verifyHandler st ev issue).1
          = [Reply.attestSuccessNotice, Reply.unitSent u] := by
  rcases ev with _ | _ | env
  · exact Or.inl rfl
  · exact Or.inl rfl
  · unfold verifyHandler
    rcases env with ⟨sv, authors, pl⟩
    cases sv
    · exact Or.inl rfl
    · cases authors with
      | nil => exact Or.inl rfl
      | cons author rest =>
        cases pl with
        | none => exact Or.inl rfl
        | some sd =>
          dsimp only
          simp only [Bool.not_true, Bool.false_eq_true, if_false]
          cases hres : resolveClaimAddress sd.message sd.fields with
          | error e => exact Or.inl rfl
          | ok addr =>
            dsimp only
            by_cases hcond : (!jsTruthyStr addr || addr == some author.address) = true
            · rw [if_pos hcond]
              cases hget : DbService.getAttestationOrders st (some defaultServiceProvider)
                  (some sd.fields) addr false with
              | error e => exact Or.inl rfl
              | ok ret =>
                cases ret with
                | null => exact Or.inl rfl
                | errObj c =>
                    dsimp only
                    by_cases h2 : (objEq [] sd.fields
                        && (sd.fields.lookup "provider" == (none : Option String))) = true
                    · rw [if_pos h2]
                      exact finalizeBranch_frame st sd addr issue
                    · rw [if_neg h2]
                      exact Or.inl rfl
                | row o =>
                    dsimp only
                    by_cases h3 : (o.status == "attested") = true
                    · rw [if_pos h3]
                      exact Or.inl rfl
                    · rw [if_neg h3]
                      by_cases h4 : (objEq (transformDataValuesToObject o) sd.fields
                          && (sd.fields.lookup "provider" == o.service_provider)) = true
                      · rw [if_pos h4]
                        exact finalizeBranch_frame st sd addr issue
                      · rw [if_neg h4]
                        exact Or.inl rfl
            · rw [if_neg hcond]
              exact Or.inl rfl

/-- C8: for every inbound event and every issuance outcome, a run that
terminates with the invalid-format, validation-failed, mismatched-address,
mismatched-data or order-not-found reply leaves the order store exactly as
it was: no step before finalization mutates the store, and the finalize
path is recognisable by its distinct two-message trace. -/
theorem verify_failure_zero_writes (st : Store) (ev : Event)
    (issue : Except Unit String) :
    ((verifyHandler st ev issue).1 = [Reply.invalidFormat]
      ∨ (verifyHandler st ev issue).1 = [Reply.validationFailed]
      ∨ (verifyHandler st ev issue).1 = [Reply.mismatchAddress]
      ∨ (verifyHandler st ev issue).1 = [Reply.mismatchData]
      ∨ (verifyHandler st ev issue).1 = [Reply.cannotFindOrder]) →
    (verifyHandler st ev issue).2 = st := by
  intro h
  rcases verifyHandler_mutation_shape st ev issue with h2 | ⟨u, hu⟩
  · exact h2
  · rcases h with h | h | h | h | h <;> rw [hu] at h <;> simp at h

/-- C8: witness, at the concrete event with no signed-message block, whose
reply is the invalid-format notice. -/
theorem verify_failure_zero_writes_witness :
    (verifyHandler stEmpty .noBlock (.ok "U")).1 = [Reply.invalidFormat]
      ∧ (verifyHandler stEmpty .noBlock (.ok "U")).2 = stEmpty := by
  exact ⟨rfl, verify_failure_zero_writes stEmpty .noBlock (.ok "U") (Or.inl rfl)⟩

/-- Helper: facts about a row found by the providerless lookup: it belongs
to the store, and under `excludeAttested` it is not attested. -/
theorem plGet_some_facts (st : Store) (d : Option DataObj) (a : Option String)
    (idq : Option Nat) (ex : Bool) (o : Row)
    (h : DbServiceV2.getAttestationOrders st d a idq ex = .ok (some o)) :
    o ∈ st.rows ∧ (ex = true → (o.status == "attested") = false) := by
  unfold DbServiceV2.getAttestationOrders at h
  split at h
  · simp at h
  · split at h
    · simp at h
    · split at h
      · simp at h
      · have hh : (st.rows.filter (plRowPred (d.getD []) a idq ex)).head? = some o :=
          Except.ok.inj h
        have hm := mem_of_head_some hh
        refine ⟨(List.mem_filter.mp hm).1, ?_⟩
        intro hex
        have hp := (List.mem_filter.mp hm).2
        rw [hex] at hp
        unfold plRowPred at hp
        have h4 := ((Bool.and_eq_true _ _).mp hp).2
        simpa using h4

/-- Helper: a row found by the provider-scoped lookup belongs to the store. -/
theorem scGet_row_mem (st : Store) (sp : Option String) (d : Option DataObj)
    (a : Option String) (ex : Bool) (o : Row)
    (h : DbService.getAttestationOrders st sp d a ex = .ok (.row o)) :
    o ∈ st.rows := by
  unfold DbService.getAttestationOrders at h
  split at h
  · simp at h
  · split at h
    · simp at h
    · split at h
      · simp at h
      · split at h
        next r2 hhead =>
          have h3 := Except.ok.inj h
          have h4 : r2 = o := by injection h3
          subst h4
          exact (List.mem_filter.mp (mem_of_head_some hhead)).1
        next hhead => simp at h

/-- Helper: `createAttestationOrder` only ever appends a row, so every
attested row survives unchanged. -/
theorem attested_after_create (st : Store) (d : Option DataObj) (a : Option String)
    (dup : Bool) (r : Row) (hr : r ∈ st.rows) (hatt : r.status = "attested") :
    attestedPreserved (applyOp st (.create d a dup)) r := by
  have htriv : attestedPreserved st r := ⟨r, hr, rfl, hatt, rfl, fun x => x⟩
  unfold applyOp
  dsimp only
  cases h : DbServiceV2.createAttestationOrder st d a dup with
  | error e => exact htriv
  | ok p =>
      obtain ⟨n, st2⟩ := p
      dsimp only
      unfold DbServiceV2.createAttestationOrder at h
      split at h
      · simp at h
      · split at h
        · simp at h
        · split at h
          · simp at h
          · have h2 : _ = st2 := congrArg Prod.snd (Except.ok.inj h)
            rw [← h2]
            exact ⟨r, List.mem_append_left _ hr, rfl, hatt, rfl, fun x => x⟩
          · split at h
            · simp at h
            · have h2 : _ = st2 := congrArg Prod.snd (Except.ok.inj h)
              rw [← h2]
              exact htriv

/-- Helper: the bind UPDATE carries a `status != 'attested'` guard, so an
attested row is never rewritten. -/
theorem attested_after_bind (st : Store) (d : Option DataObj) (a : Option String)
    (r : Row) (hr : r ∈ st.rows) (hatt : r.status = "attested") :
    attestedPreserved (applyOp st (.bind d a)) r := by
  have htriv : attestedPreserved st r := ⟨r, hr, rfl, hatt, rfl, fun x => x⟩
  have hattB : (r.status == "attested") = true := by rw [hatt]; rfl
  unfold applyOp
  dsimp only
  cases h : DbServiceV2.updateWalletAddressInAttestationOrder st d a with
  | error e => exact htriv
  | ok st2 =>
      unfold DbServiceV2.updateWalletAddressInAttestationOrder at h
      split at h
      · cases hlk : DbServiceV2.getAttestationOrders st d none none true with
        | error e => rw [hlk] at h; simp at h
        | ok oo =>
            rw [hlk] at h
            cases oo with
            | none => simp at h
            | some o =>
                dsimp only at h
                split at h
                · simp at h
                · have h2 := Except.ok.inj h
                  rw [← h2]
                  refine ⟨r, ?_, rfl, hatt, rfl, fun x => x⟩
                  have hfix : (fun rr : Row =>
                      if !(rr.status == "attested") && rr.id == o.id then
                        { rr with user_wallet_address := a, status := "addressed" }
                      else rr) r = r := by
                    simp only [hattB, Bool.not_true, Bool.false_and,
                      Bool.false_eq_true, if_false]
                  have hmm := List.mem_map_of_mem (fun rr : Row =>
                      if !(rr.status == "attested") && rr.id == o.id then
                        { rr with user_wallet_address := a, status := "addressed" }
                      else rr) hr
                  rw [hfix] at hmm
                  exact hmm
      · simp at h

/-- Helper: the device-address UPDATE carries a `status != 'attested'`
guard, so an attested row is never rewritten. -/
theorem attested_after_rebindDevice (st : Store) (oid : Option Nat)
    (dev : Option String) (r : Row) (hr : r ∈ st.rows)
    (hatt : r.status = "attested") :
    attestedPreserved (applyOp st (.rebindDevice oid dev)) r := by
  have htriv : attestedPreserved st r := ⟨r, hr, rfl, hatt, rfl, fun x => x⟩
  have hattB : (r.status == "attested") = true := by rw [hatt]; rfl
  unfold applyOp
  dsimp only
  cases h : DbServiceV2.updateDeviceAddressInAttestationOrder st oid dev with
  | error e => exact htriv
  | ok st2 =>
      unfold DbServiceV2.updateDeviceAddressInAttestationOrder at h
      split at h
      · have h2 := Except.ok.inj h
        rw [← h2]
        refine ⟨r, ?_, rfl, hatt, rfl, fun x => x⟩
        have hfix : (fun rr : Row =>
            if !(rr.status == "attested") && rr.id == oid.getD 0 then
              { rr with user_device_address := dev }
            else rr) r = r := by
          simp only [hattB, Bool.not_true, Bool.false_and, Bool.false_eq_true, if_false]
        have hmm := List.mem_map_of_mem (fun rr : Row =>
            if !(rr.status == "attested") && rr.id == oid.getD 0 then
              { rr with user_device_address := dev }
            else rr) hr
        rw [hfix] at hmm
        exact hmm
      · simp at h

/-- Helper: the providerless unbind UPDATE is guarded only by the id of the
looked-up order, which the `excludeAttested` lookup and the status guard
keep non-attested; in a well-formed store that id can never be an attested
row's id. -/
theorem attested_after_unbind (st : Store) (d : Option DataObj) (a : Option String)
    (r : Row) (hwf : st.wf) (hr : r ∈ st.rows) (hatt : r.status = "attested") :
    attestedPreserved (applyOp st (.unbind d a)) r := by
  have htriv : attestedPreserved st r := ⟨r, hr, rfl, hatt, rfl, fun x => x⟩
  have hattB : (r.status == "attested") = true := by rw [hatt]; rfl
  unfold applyOp
  dsimp only
  cases h : DbServiceV2.removeWalletAddressInAttestationOrder st d a with
  | error e => exact htriv
  | ok st2 =>
      unfold DbServiceV2.removeWalletAddressInAttestationOrder at h
      split at h
      · simp at h
      · cases hlk : DbServiceV2.getAttestationOrders st d a none true with
        | error e => rw [hlk] at h; simp at h
        | ok oo =>
            rw [hlk] at h
            cases oo with
            | none => simp at h
            | some o =>
                dsimp only at h
                split at h
                · simp at h
                · split at h
                  · simp at h
                  · next hsu =>
                    have ho : o ∈ st.rows := (plGet_some_facts st d a none true o hlk).1
                    have hso : (o.status == "attested") = false := by
                      cases hx : (o.status == "attested") with
                      | false => rfl
                      | true => exact absurd (by rw [hx]; exact Bool.true_or _) hsu
                    have hid : (r.id == o.id) = false := by
                      rw [Bool.eq_false_iff]
                      intro hb
                      have hro : r = o :=
                        List.inj_on_of_nodup_map hwf hr ho (by simpa using hb)
                      rw [← hro] at hso
                      rw [hattB] at hso
                      cases hso
                    have h2 := Except.ok.inj h
                    rw [← h2]
                    refine ⟨r, ?_, rfl, hatt, rfl, fun x => x⟩
                    have hfix : (fun rr : Row =>
                        if rr.id == o.id then
                          { rr with user_wallet_address := none, status := "pending" }
                        else rr) r = r := by
                      simp only [hid, Bool.false_eq_true, if_false]
                    have hmm := List.mem_map_of_mem (fun rr : Row =>
                        if rr.id == o.id then
                          { rr with user_wallet_address := none, status := "pending" }
                        else rr) hr
                    rw [hfix] at hmm
                    exact hmm

/-- Helper: the providerless finalize UPDATE targets the id of an order the
`excludeAttested` lookup found, which in a well-formed store is never an
attested row's id. -/
theorem attested_after_finalize (st : Store) (d : Option DataObj)
    (a : Option String) (u : Option String) (r : Row) (hwf : st.wf)
    (hr : r ∈ st.rows) (hatt : r.status = "attested") :
    attestedPreserved (applyOp st (.finalize d a u)) r := by
  have htriv : attestedPreserved st r := ⟨r, hr, rfl, hatt, rfl, fun x => x⟩
  have hattB : (r.status == "attested") = true := by rw [hatt]; rfl
  unfold applyOp
  dsimp only
  cases h : DbServiceV2.updateUnitAndChangeStatus st d a u with
  | error e => exact htriv
  | ok st2 =>
      unfold DbServiceV2.updateUnitAndChangeStatus at h
      split at h
      · cases hlk : DbServiceV2.getAttestationOrders st d a none true with
        | error e => rw [hlk] at h; simp at h
        | ok oo =>
            rw [hlk] at h
            cases oo with
            | none => simp at h
            | some o =>
                dsimp only at h
                have ho := plGet_some_facts st d a none true o hlk
                have hso : (o.status == "attested") = false := ho.2 rfl
                have hid : (r.id == o.id) = false := by
                  rw [Bool.eq_false_iff]
                  intro hb
                  have hro : r = o :=
                    List.inj_on_of_nodup_map hwf hr ho.1 (by simpa using hb)
                  rw [← hro, hattB] at hso
                  cases hso
                have h2 := Except.ok.inj h
                rw [← h2]
                refine ⟨r, ?_, rfl, hatt, rfl, fun x => x⟩
                have hfix : (fun rr : Row =>
                    if rr.id == o.id && rr.user_wallet_address == a then
                      { rr with unit := u, status := "attested" }
                    else rr) r = r := by
                  simp only [hid, Bool.false_and, Bool.false_eq_true, if_false]
                have hmm := List.mem_map_of_mem (fun rr : Row =>
                    if rr.id == o.id && rr.user_wallet_address == a then
                      { rr with unit := u, status := "attested" }
                    else rr) hr
                rw [hfix] at hmm
                exact hmm
      · simp at h

/-- Helper: the provider-scoped unbind only rewrites the id of an order its
status guard proved 'addressed', never an attested row of a well-formed
store. -/
theorem attested_after_scUnbind (st : Store) (sp : Option String)
    (d : Option DataObj) (a : Option String) (r : Row) (hwf : st.wf)
    (hr : r ∈ st.rows) (hatt : r.status = "attested") :
    attestedPreserved (applyOp st (.scUnbind sp d a)) r := by
  have htriv : attestedPreserved st r := ⟨r, hr, rfl, hatt, rfl, fun x => x⟩
  have hattB : (r.status == "attested") = true := by rw [hatt]; rfl
  unfold applyOp
  dsimp only
  cases h : DbService.removeWalletAddressInAttestationOrder st sp d a with
  | error e => exact htriv
  | ok p =>
      obtain ⟨ret, st2⟩ := p
      dsimp only
      unfold DbService.removeWalletAddressInAttestationOrder at h
      split at h
      · simp at h
      · split at h
        · have h2 : _ = st2 := congrArg Prod.snd (Except.ok.inj h)
          rw [← h2]
          exact htriv
        · cases hlk : DbService.getAttestationOrders st sp d a true with
          | error e => rw [hlk] at h; simp at h
          | ok oo =>
              rw [hlk] at h
              cases oo with
              | null => simp at h
              | errObj c => simp at h
              | row o =>
                  dsimp only at h
                  split at h
                  · simp at h
                  · split at h
                    · simp at h
                    · next hstatus =>
                      have ho : o ∈ st.rows := scGet_row_mem st sp d a true o hlk
                      have hso : (o.status == "attested") = false := by
                        have hadr : (o.status == "addressed") = true := by
                          cases hx : (o.status == "addressed") with
                          | true => rfl
                          | false => exact absurd (by rw [hx]; rfl) hstatus
                        have := eq_of_beq hadr
                        rw [this]
                        rfl
                      have hid : (r.id == o.id) = false := by
                        rw [Bool.eq_false_iff]
                        intro hb
                        have hro : r = o :=
                          List.inj_on_of_nodup_map hwf hr ho (by simpa using hb)
                        rw [← hro, hattB] at hso
                        cases hso
                      have h2 : _ = st2 := congrArg Prod.snd (Except.ok.inj h)
                      rw [← h2]
                      refine ⟨r, ?_, rfl, hatt, rfl, fun x => x⟩
                      have hfix : (fun rr : Row =>
                          if rr.service_provider == sp && rr.id == o.id then
                            { rr with user_wallet_address := none, status := "pending" }
                          else rr) r = r := by
                        simp only [hid, Bool.and_false, Bool.false_eq_true, if_false]
                      have hmm := List.mem_map_of_mem (fun rr : Row =>
                          if rr.service_provider == sp && rr.id == o.id then
                            { rr with user_wallet_address := none, status := "pending" }
                          else rr) hr
                      rw [hfix] at hmm
                      exact hmm

/-- Helper: the provider-scoped finalize UPDATE can, through the
precedence-bugged lookup, hit an attested row, but it only rewrites unit
(to a validated, present unit) and status (to 'attested'), so the
terminal-status property is still preserved. -/
theorem attested_after_scFinalize (st : Store) (sp : Option String)
    (d : Option DataObj) (a : Option String) (u : Option String) (r : Row)
    (hr : r ∈ st.rows) (hatt : r.status = "attested") :
    attestedPreserved (applyOp st (.scFinalize sp d a u)) r := by
  have htriv : attestedPreserved st r := ⟨r, hr, rfl, hatt, rfl, fun x => x⟩
  unfold applyOp
  dsimp only
  cases h : DbService.updateUnitAndChangeStatus st sp d a u with
  | error e => exact htriv
  | ok st2 =>
      unfold DbService.updateUnitAndChangeStatus at h
      split at h
      · next hval =>
        have hu : u.isSome = true := by
          have h1 := ((Bool.and_eq_true _ _).mp hval).1
          have h2 := ((Bool.and_eq_true _ _).mp h1).1
          have h3 := ((Bool.and_eq_true _ _).mp h2).2
          cases u with
          | none => simp [Validation.isUnit] at h3
          | some s => rfl
        cases hlk : DbService.getAttestationOrders st sp d a true with
        | error e => rw [hlk] at h; simp at h
        | ok oo =>
            rw [hlk] at h
            cases oo with
            | null => simp at h
            | errObj c =>
                dsimp only at h
                have h2 := Except.ok.inj h
                rw [← h2]
                exact htriv
            | row o =>
                dsimp only at h
                have h2 := Except.ok.inj h
                rw [← h2]
                refine ⟨(fun rr : Row =>
                    if rr.service_provider == sp && rr.id == o.id
                        && rr.user_wallet_address == a then
                      { rr with unit := u, status := "attested" }
                    else rr) r, List.mem_map_of_mem _ hr, ?_⟩
                cases hg : (r.service_provider == sp && r.id == o.id
                    && r.user_wallet_address == a) with
                | false => simp [hg, hatt]
                | true => simp [hg, hu]
      · simp at h

/-- C9: the 'attested' status is terminal.  For every lifecycle operation —
createOrder, bindAddress, unbindAddress, finalize, rebindDeviceAddress,
and the provider-scoped unbind and finalize — every attested row of a
well-formed store survives the operation with the same id, still status
'attested', the same wallet address, and a unit that is never cleared. -/
theorem attested_is_terminal (st : Store) (op : Op) (r : Row) (hwf : st.wf)
    (hr : r ∈ st.rows) (hatt : r.status = "attested") :
    attestedPreserved (applyOp st op) r := by
  cases op with
  | create d a dup => exact attested_after_create st d a dup r hr hatt
  | bind d a => exact attested_after_bind st d a r hr hatt
  | unbind d a => exact attested_after_unbind st d a r hwf hr hatt
  | finalize d a u => exact attested_after_finalize st d a u r hwf hr hatt
  | rebindDevice oid dev => exact attested_after_rebindDevice st oid dev r hr hatt
  | scUnbind sp d a => exact attested_after_scUnbind st sp d a r hwf hr hatt
  | scFinalize sp d a u => exact attested_after_scFinalize st sp d a u r hr hatt

/-- C9: witness.  The invariant applied to the attested single-order store
and the unbind operation, the instantiated conclusion evaluated on the
concrete store. -/
theorem attested_is_terminal_witness :
    attestedPreserved
      (applyOp stAttestedNP (.unbind (some [("a", "1")]) (some addrA)))
      ⟨1, none, [("a", "1")], some addrA, none, some "U1", "attested"⟩ := by
  exact attested_is_terminal stAttestedNP (.unbind (some [("a", "1")]) (some addrA))
    ⟨1, none, [("a", "1")], some addrA, none, some "U1", "attested"⟩
    (by decide) (by decide) rfl
